import Mathlib

/-
  Verification development for the agentic_trading repository.

  Shallow embedding conventions:
  * Python floats that carry money/price values are modelled as ℚ (exact
    rational arithmetic); `round(x, 2)` is modelled by `round2` below.
  * Python dicts read with `.get` are modelled as structures of `Option`
    fields (absent key = `none`); Python truthiness of strings/floats is
    modelled by the `strTruthy` / `qTruthy` / `pyOr*` helpers.
  * Awaited tool calls and the database session are modelled by explicit
    state passing; the JSON parser of the Python standard library is an
    abstract parameter (it is outside the repository).
-/

namespace ATrade

/-- Rounding to 2 decimal places, modelling Python `round(x, 2)`.
Mathlib `round` is round-half-up; Python rounds half to even on binary
floats.  The two agree at every input used in this development (none of
them is an exact half-cent tie). -/
def round2 (q : ℚ) : ℚ := (round (q * 100) : ℤ) / 100

/-- Rounding to 1 decimal place, modelling Python `round(x, 1)`. -/
def round1 (q : ℚ) : ℚ := (round (q * 10) : ℤ) / 10

/-- Python truthiness of an optional string: `None` and `""` are falsy. -/
def strTruthy : Option String → Bool
  | none => false
  | some s => s ≠ ""

/-- Python `a or b` for optional strings. -/
def pyOrStr (a b : Option String) : Option String :=
  if strTruthy a then a else b

/-- Python truthiness of an optional float: `None` and `0.0` are falsy. -/
def qTruthy : Option ℚ → Bool
  | none => false
  | some v => v ≠ 0

/-- Python `a or d` for an optional float `a` and default `d`. -/
def pyOrQ (a : Option ℚ) (d : ℚ) : ℚ :=
  match a with
  | some v => if v = 0 then d else v
  | none => d

/-- Fields of the `analyst_signal` dict that merge.py reads
(absent key = `none`). -/
structure SignalDict where
  signal : Option String := none
  coin : Option String := none
  reasoning : Option String := none
  size_usd : Option ℚ := none
  entry_price : Option ℚ := none
deriving DecidableEq

/-- Fields of the `exit_plan` sub-dict of the risk decision.  An `Option`
field is `none` when the key is absent or mapped to `None`. -/
structure ExitPlanDict where
  stop_loss_pct : Option ℚ := none
  take_profit_pct : Option ℚ := none
  invalidation_conditions : List String := []
deriving DecidableEq

/-- Fields of the `risk_decision` dict that merge.py reads. -/
structure RiskDict where
  decision : Option String := none
  action : Option String := none
  approved : Option Bool := none
  reasoning : Option String := none
  notes : Option String := none
  adjusted_size_usd : Option ℚ := none
  leverage : Option ℚ := none
  exit_plan : ExitPlanDict := {}
deriving DecidableEq

/-- Trade parameters built by `_build_trade_params` (merge.py lines 247-255). -/
structure TradeParams where
  coin : Option String
  is_buy : Bool
  size : ℚ
  size_type : String
  sl_pct : ℚ
  tp_pct : ℚ
  leverage : ℚ
deriving DecidableEq

/-- Constant `MIN_ORDER_SIZE` of merge.py line 229. -/
def MIN_ORDER_SIZE : ℚ := 12

/-- Constant `MAX_LEVERAGE` of merge.py line 230. -/
def MAX_LEVERAGE : ℚ := 40

/-- Constant `LADDER_SAFETY` of merge.py line 231. -/
def LADDER_SAFETY : ℚ := 9/10

/-- Size/leverage override block of `_build_trade_params`
(merge.py lines 237-245): below $50 equity, a suggested size smaller than
equity × 40 × 0.9 is replaced by `max max_position MIN_ORDER_SIZE` and
leverage is forced to 40; otherwise size and leverage pass through. -/
def ladder_override (current_equity size_usd leverage : ℚ) : ℚ × ℚ :=
  if current_equity < 50 then
    let max_position := current_equity * MAX_LEVERAGE * LADDER_SAFETY
    if size_usd < max_position then (max max_position MIN_ORDER_SIZE, MAX_LEVERAGE)
    else (size_usd, leverage)
  else (size_usd, leverage)

/-- Embedding of `_build_trade_params` (merge.py lines 199-255).
`pos_side` models `state.account_state.open_position_details.get(coin)`
and `default_sl` models `cfg.risk.default_sl_btc_pct`. -/
def build_trade_params (analyst : SignalDict) (risk : RiskDict)
    (default_sl : ℚ) (pos_side : Option String → Option String)
    (current_equity : ℚ) : TradeParams :=
  let size0 := pyOrQ risk.adjusted_size_usd (analyst.size_usd.getD 1000)
  let lev0 := risk.leverage.getD 20
  let ep := risk.exit_plan
  let coin := analyst.coin
  let signal_type := analyst.signal
  let is_buy :=
    if signal_type = some "LONG" then true
    else if signal_type = some "SHORT" then false
    else if signal_type = some "SCALE_IN" then
      ((pos_side coin).getD "LONG") = "LONG"
    else true
  let sz := ladder_override current_equity size0 lev0
  { coin := coin
    is_buy := is_buy
    size := sz.1
    size_type := "usd"
    sl_pct := ep.stop_loss_pct.getD default_sl
    tp_pct := ep.take_profit_pct.getD (5/100)
    leverage := sz.2 }

/-- Side effects the merge node can trigger, in order. -/
inductive Effect
  | cutLossClose (coin : String)
  | scaleOut (coin : Option String) (pct : ℚ)
  | placeOrder (p : TradeParams)
deriving DecidableEq

/-- The `final_decision` record produced by merge_node. -/
structure FinalDecision where
  action : String
  trade_coin : Option String := none
  trade_action : Option String := none
  reasoning : Option String := none
deriving DecidableEq

/-- Result of one merge_node invocation: the final decision plus the
ordered list of execution effects it triggered. -/
structure MergeResult where
  final : FinalDecision
  effects : List Effect
deriving DecidableEq

/-- Decision normalization of merge.py lines 40-44:
`decision = risk.get("decision") or risk.get("action")`, then the
APPROVE/OPEN_LONG/OPEN_SHORT aliases are collapsed to APPROVE. -/
def normalized_decision (risk : RiskDict) : Option String :=
  let d := pyOrStr risk.decision risk.action
  if d = some "APPROVE" ∨ d = some "OPEN_LONG" ∨ d = some "OPEN_SHORT" then
    some "APPROVE"
  else d

/-- Coin defaulting of merge.py: `analyst_signal.get("coin") or "BTC"`. -/
def coin_or_btc (analyst : SignalDict) : String :=
  (pyOrStr analyst.coin (some "BTC")).getD "BTC"

/-- Embedding of `merge_node` (merge.py lines 21-196).
`analyst?` is `state.get("analyst_signal")`: `none` models an absent or
empty dict (the code replaces falsy values by an empty dict, whose every
`.get` returns `None`).  `requires_approval` is the constant `False` of
line 166, so the REQUEST_APPROVAL branch is unreachable.  The awaited
execution results do not influence the returned action, so they are not
parameters. -/
def merge_node (analyst? : Option SignalDict) (risk : RiskDict)
    (default_sl : ℚ) (pos_side : Option String → Option String)
    (current_equity : ℚ) : MergeResult :=
  let analyst := analyst?.getD {}
  let decision := normalized_decision risk
  if decision = some "CUT_LOSS" then
    let coin := coin_or_btc analyst
    { final := { action := "EXECUTED", trade_coin := some coin,
                 trade_action := some "CUT_LOSS",
                 reasoning := some (risk.reasoning.getD "Emergency Cut") }
      effects := [.cutLossClose coin] }
  else if analyst.signal = some "CLOSE" then
    let coin := coin_or_btc analyst
    { final := { action := "EXECUTED", trade_coin := some coin,
                 trade_action := some "CLOSE",
                 reasoning := some (analyst.reasoning.getD "Analyst triggered CLOSE") }
      effects := [.cutLossClose coin] }
  else if analyst.signal = some "CUT_LOSS" then
    let coin := coin_or_btc analyst
    { final := { action := "EXECUTED", trade_coin := some coin,
                 trade_action := some "CUT_LOSS",
                 reasoning := some (analyst.reasoning.getD "Stop loss hit - emergency exit") }
      effects := [.cutLossClose coin] }
  else if analyst.signal = some "SCALE_OUT" then
    let coin := coin_or_btc analyst
    { final := { action := "EXECUTED", trade_coin := some coin,
                 trade_action := some "SCALE_OUT",
                 reasoning := some (analyst.reasoning.getD "Taking partial profit") }
      effects := [.scaleOut (some coin) (1/2)] }
  else
    -- SCALE_IN only logs and falls through (merge.py lines 112-116)
    if (analyst.signal = some "HOLD" ∨ analyst.signal = none) ∧
        decision ≠ some "RESCUE_DCA" ∧ decision ≠ some "CUT_LOSS" then
      { final := { action := "NO_TRADE",
                   reasoning := some (match analyst? with
                     | none => "Analyst did not return a signal"
                     | some a => a.reasoning.getD "No opportunity identified") }
        effects := [] }
    else if decision = some "REJECT" then
      { final := { action := "REJECTED",
                   reasoning := some (risk.notes.getD "Risk rules violated") }
        effects := [] }
    else if decision = some "NO_TRADE" then
      { final := { action := "NO_TRADE",
                   reasoning := some "No active trade signal" }
        effects := [] }
    else if (decision = some "SCALE_OUT" ∨ decision = some "REDUCE") ∧
        analyst.signal = some "SCALE_OUT" then
      -- dead branch: an analyst SCALE_OUT already returned above
      { final := { action := "SCALED_OUT", trade_coin := analyst.coin,
                   trade_action := some "CLOSE_PARTIAL" }
        effects := [.scaleOut analyst.coin (1/2)] }
    else
      let tp := build_trade_params analyst risk default_sl pos_side current_equity
      { final := { action := "EXECUTED", trade_coin := tp.coin }
        effects := [.placeOrder tp] }

/-! ### Emergency close helper (merge.py lines 359-376) -/

/-- Result dict of `_execute_cut_loss`. -/
structure CutLossResult where
  success : Bool
  tool : Option String := none
  error : Option String := none
deriving DecidableEq

/-- A recorded tool call: tool name and the coin argument passed, if any. -/
structure ToolInvocation where
  name : String
  args_coin : Option String := none
deriving DecidableEq

/-- Embedding of `_execute_cut_loss` (merge.py lines 359-376).  The
function searches the tool list only for `close_all_positions` and, when
found, awaits it with an empty argument dict; `invoke_ok`/`err_msg`
abstract whether that awaited call raises and with which message.  The
returned list records the tool calls actually attempted. -/
def execute_cut_loss (coin : String) (tools : List String)
    (invoke_ok : Bool) (err_msg : String) : CutLossResult × List ToolInvocation :=
  -- the `coin` parameter is not read by the source body
  let _ := coin
  if tools.contains "close_all_positions" then
    if invoke_ok then
      ({ success := true, tool := some "close_all_positions" },
       [{ name := "close_all_positions" }])
    else
      ({ success := false, error := some err_msg },
       [{ name := "close_all_positions" }])
  else
    ({ success := false, error := some "close_all_positions tool not found" }, [])

/-! ### Trade store (repository.py and merge.py `_save_trade_to_db`) -/

/-- Modelled from the spec: the persistent Trade row of spec section 3
(src has no `agent/db/models.py`; the fields are the ones read and written
by repository.py and merge.py — coin, direction, entry price, notional
size, leverage, opened/closed timestamps, realized PnL, close reason,
thesis text).  Timestamps are rationals supplied by the caller. -/
structure TradeRow where
  id : Nat
  coin : Option String
  direction : String
  entry_price : ℚ
  size_usd : ℚ
  leverage : ℚ
  opened_at : ℚ
  closed_at : Option ℚ := none
  exit_price : Option ℚ := none
  close_reason : Option String := none
  pnl_pct : Option ℚ := none
  pnl_usd : Option ℚ := none
  reasoning : Option String := none
deriving DecidableEq

/-- Modelled from the spec: the ExitPlan row of spec section 3, 1:1 with an
open Trade via `trade_id` (src has no `agent/db/models.py`). -/
structure PlanRow where
  trade_id : Nat
  stop_loss_pct : Option ℚ := none
  take_profit_pct : Option ℚ := none
  stop_loss_price : Option ℚ := none
  take_profit_price : Option ℚ := none
  invalidation_conditions : List String := []
  status : String := "ACTIVE"
deriving DecidableEq

/-- The trade database: trade rows, exit-plan rows, next fresh trade id. -/
structure TradeDB where
  trades : List TradeRow
  plans : List PlanRow
  next_id : Nat
deriving DecidableEq

/-- Embedding of `TradeRepository.close_trade` (repository.py lines
89-116): look the trade up by id, stamp `closed_at`/`exit_price`/
`close_reason`, compute directional `pnl_pct` and
`pnl_usd = size_usd * pnl_pct * leverage`.  Returns the refreshed row and
the updated table.  The Python code divides by `entry_price` and raises
ZeroDivisionError when it is zero, so theorems assume `entry_price ≠ 0`. -/
def close_trade (db : List TradeRow) (trade_id : Nat) (exit_price : ℚ)
    (close_reason : String) (now : ℚ) : Option TradeRow × List TradeRow :=
  match db.find? (fun t => t.id = trade_id) with
  | none => (none, db)
  | some t =>
    let pct :=
      if t.direction = "LONG" then (exit_price - t.entry_price) / t.entry_price
      else (t.entry_price - exit_price) / t.entry_price
    let t' := { t with
      closed_at := some now
      exit_price := some exit_price
      close_reason := some close_reason
      pnl_pct := some pct
      pnl_usd := some (t.size_usd * pct * t.leverage) }
    (some t', db.map (fun u => if u.id = trade_id then t' else u))

/-- Embedding of `_save_trade_to_db` (merge.py lines 396-494).
If an open trade for `params.coin` exists, only its exit plan is updated
(or created when missing); otherwise a new Trade plus ExitPlan pair is
inserted.  `result_px` models `result.get("avgPx", result.get("entryPx"))`
when the execution result is a dict. -/
def save_trade_to_db (params : TradeParams) (analyst : SignalDict)
    (risk : RiskDict) (result_px : Option ℚ) (now : ℚ) (db : TradeDB) : TradeDB :=
  let coin := params.coin
  let epd := risk.exit_plan
  match db.trades.find? (fun t => t.coin = coin ∧ t.closed_at = none) with
  | some existing =>
    match db.plans.find? (fun p => p.trade_id = existing.id) with
    | some _ =>
      { db with plans := db.plans.map (fun p =>
          if p.trade_id = existing.id then
            { p with
              stop_loss_pct := match epd.stop_loss_pct with
                | some v => some v
                | none => p.stop_loss_pct
              take_profit_pct := match epd.take_profit_pct with
                | some v => some v
                | none => p.take_profit_pct
              invalidation_conditions :=
                if epd.invalidation_conditions ≠ [] then
                  epd.invalidation_conditions
                else p.invalidation_conditions }
          else p) }
    | none =>
      { db with plans := db.plans ++
          [{ trade_id := existing.id
             stop_loss_pct := epd.stop_loss_pct
             take_profit_pct := epd.take_profit_pct
             invalidation_conditions := epd.invalidation_conditions
             status := "ACTIVE" }] }
  | none =>
    let entry_px := match result_px with
      | some v => v
      | none => analyst.entry_price.getD 0
    let direction := if params.is_buy then "LONG" else "SHORT"
    let t : TradeRow :=
      { id := db.next_id
        coin := coin
        direction := direction
        entry_price := entry_px
        size_usd := params.size
        leverage := params.leverage
        opened_at := now
        reasoning := some (analyst.reasoning.getD "Autonomous Entry (No reasoning provided)") }
    let tp_pct := epd.take_profit_pct
    let sl_pct := epd.stop_loss_pct
    let tp_price : ℚ :=
      if 0 < entry_px then
        if direction = "LONG" then
          (if qTruthy tp_pct then entry_px * (1 + tp_pct.getD 0) else 0)
        else
          (if qTruthy tp_pct then entry_px * (1 - tp_pct.getD 0) else 0)
      else 0
    let sl_price : ℚ :=
      if 0 < entry_px then
        if direction = "LONG" then
          (if qTruthy sl_pct then entry_px * (1 - sl_pct.getD 0) else 0)
        else
          (if qTruthy sl_pct then entry_px * (1 + sl_pct.getD 0) else 0)
      else 0
    { trades := db.trades ++ [t]
      plans := db.plans ++
        [{ trade_id := db.next_id
           stop_loss_pct := sl_pct
           take_profit_pct := tp_pct
           stop_loss_price := some sl_price
           take_profit_price := some tp_price
           invalidation_conditions := epd.invalidation_conditions
           status := "ACTIVE" }]
      next_id := db.next_id + 1 }

/-- Number of open trade rows for a coin. -/
def open_count (coin : Option String) (trades : List TradeRow) : Nat :=
  trades.countP (fun t => t.coin = coin ∧ t.closed_at = none)

/-! ### Shadow trading engine (dspy_memory.py and dspy/simulator.py) -/

/-- The ShadowTrade row (dspy_memory.py lines 9-43).  A trade is open
while `pnl_usd` is `None`. -/
structure ShadowTradeRow where
  id : Nat
  timestamp : ℚ
  coin : String
  signal : String
  confidence : ℚ
  entry_price : ℚ
  size_usd : ℚ
  leverage : ℚ
  stop_loss : Option ℚ := none
  take_profit : Option ℚ := none
  exit_price : Option ℚ := none
  pnl_usd : Option ℚ := none
  pnl_percent : Option ℚ := none
  fees_usd : Option ℚ := none
  slippage_usd : Option ℚ := none
  duration_minutes : Option ℚ := none
deriving DecidableEq

/-- The ShadowAccountState row (dspy_memory.py lines 46-65). -/
structure ShadowAccountState where
  initial_equity : ℚ
  current_equity : ℚ
  total_pnl : ℚ := 0
  total_fees : ℚ := 0
  total_slippage : ℚ := 0
  total_trades : Nat := 0
  winning_trades : Nat := 0
  losing_trades : Nat := 0
deriving DecidableEq

/-- Constant `SIMULATED_FEE_RATE` of simulator.py line 9 (0.03 percent). -/
def SIMULATED_FEE_RATE : ℚ := 3/10000

/-- Constant `SIMULATED_SLIPPAGE_RATE` of simulator.py line 11. -/
def SIMULATED_SLIPPAGE_RATE : ℚ := 1/10000

/-- Account creation of `DSPyRepository.get_or_create_account`
(dspy_memory.py lines 148-151): initial and current equity are both
seeded from the given equity, counters start at zero. -/
def new_account (seed_equity : ℚ) : ShadowAccountState :=
  { initial_equity := seed_equity, current_equity := seed_equity }

/-- Embedding of `DSPyRepository.update_account_after_trade`
(dspy_memory.py lines 166-187) for an existing account row: all fields of
the single row change in one commit. -/
def update_account_after_trade (a : ShadowAccountState)
    (pnl fees slippage : ℚ) (is_winner : Bool) : ShadowAccountState :=
  let net_pnl := pnl - fees - slippage
  { a with
    current_equity := a.current_equity + net_pnl
    total_pnl := a.total_pnl + pnl
    total_fees := a.total_fees + fees
    total_slippage := a.total_slippage + slippage
    total_trades := a.total_trades + 1
    winning_trades := a.winning_trades + (if is_winner then 1 else 0)
    losing_trades := a.losing_trades + (if is_winner then 0 else 1) }

/-- The same update when the account row may be absent (the Python code
returns without writing when the select finds no row). -/
def update_account_opt (a? : Option ShadowAccountState)
    (pnl fees slippage : ℚ) (is_winner : Bool) : Option ShadowAccountState :=
  a?.map (fun a => update_account_after_trade a pnl fees slippage is_winner)

/-- Stop/target crossing check of `ShadowSimulator.update_open_trades`
(simulator.py lines 37-57): directional comparison with Python truthiness
on the stop and target levels; the exit price is the triggered level. -/
def shadow_trigger (current_price : ℚ) (t : ShadowTradeRow) : Option (ℚ × String) :=
  if t.signal = "LONG" then
    if qTruthy t.stop_loss ∧ current_price ≤ t.stop_loss.getD 0 then
      some (t.stop_loss.getD 0, "STOP_LOSS")
    else if qTruthy t.take_profit ∧ t.take_profit.getD 0 ≤ current_price then
      some (t.take_profit.getD 0, "TAKE_PROFIT")
    else none
  else if t.signal = "SHORT" then
    if qTruthy t.stop_loss ∧ t.stop_loss.getD 0 ≤ current_price then
      some (t.stop_loss.getD 0, "STOP_LOSS")
    else if qTruthy t.take_profit ∧ current_price ≤ t.take_profit.getD 0 then
      some (t.take_profit.getD 0, "TAKE_PROFIT")
    else none
  else none

/-- Closing computation of `ShadowSimulator.update_open_trades`
(simulator.py lines 60-102) for one triggered trade: gross PnL from the
directional formula, round-trip fees and slippage, net PnL persisted on
the row rounded to cents, and the account updated with the unrounded
values (`pnl` passed to the account update is the gross PnL).  When
`entry_price ≤ 0` nothing is written. -/
def close_shadow_trade (now : ℚ) (t : ShadowTradeRow) (exit_price : ℚ)
    (a? : Option ShadowAccountState) : ShadowTradeRow × Option ShadowAccountState :=
  let lev := if t.leverage = 0 then 1 else t.leverage
  let size := if t.size_usd = 0 then 1000 else t.size_usd
  let entry := t.entry_price
  if 0 < entry then
    let raw_pnl_pct :=
      if t.signal = "LONG" then (exit_price - entry) / entry
      else (entry - exit_price) / entry
    let gross_pnl_usd := raw_pnl_pct * size * lev
    let pnl_percent := raw_pnl_pct * lev * 100
    let fees_usd := size * SIMULATED_FEE_RATE * 2
    let slippage_usd := size * SIMULATED_SLIPPAGE_RATE * 2
    let net_pnl_usd := gross_pnl_usd - fees_usd - slippage_usd
    let is_winner : Bool := if 0 < net_pnl_usd then true else false
    let t' := { t with
      exit_price := some exit_price
      pnl_usd := some (round2 net_pnl_usd)
      pnl_percent := some (round2 pnl_percent)
      fees_usd := some (round2 fees_usd)
      slippage_usd := some (round2 slippage_usd)
      duration_minutes := some (round1 ((now - t.timestamp) / 60)) }
    (t', update_account_opt a? gross_pnl_usd fees_usd slippage_usd is_winner)
  else (t, a?)

/-- Embedding of `ShadowSimulator.update_open_trades` (simulator.py lines
19-124): for every open trade on `coin`, close it when its stop or target
is crossed, threading the account state through the closes in list
order.  Returns the updated table and account. -/
def update_open_trades (now current_price : ℚ) (coin : String)
    (db : List ShadowTradeRow) (a? : Option ShadowAccountState) :
    List ShadowTradeRow × Option ShadowAccountState :=
  if current_price ≤ 0 then (db, a?)
  else
    db.foldl (fun acc t =>
      if t.coin = coin ∧ t.pnl_usd = none then
        match shadow_trigger current_price t with
        | some (ex, _reason) =>
          if ex ≠ 0 then
            let r := close_shadow_trade now t ex acc.2
            (acc.1 ++ [r.1], r.2)
          else (acc.1 ++ [t], acc.2)
        | none => (acc.1 ++ [t], acc.2)
      else (acc.1 ++ [t], acc.2)) ([], a?)

/-- One account-close event as fed to `update_account_after_trade`. -/
structure CloseEvent where
  pnl : ℚ
  fees : ℚ
  slippage : ℚ
  is_winner : Bool
deriving DecidableEq

/-- A sequence of account updates, one per closed shadow trade. -/
def apply_close_events (a : ShadowAccountState) (evs : List CloseEvent) :
    ShadowAccountState :=
  evs.foldl (fun acc e => update_account_after_trade acc e.pnl e.fees e.slippage e.is_winner) a

/-! ### Shadow cycle signal handling (core/shadow_runner.py) -/

/-- Names of the methods the class `ShadowSimulator` actually defines
(simulator.py lines 13-124: the whole class body). -/
def shadowSimulatorMethods : List String := ["update_open_trades"]

/-- Outcome of the signal-handling tail of one shadow cycle. -/
structure ShadowCycleOutcome where
  trades : List ShadowTradeRow
  account : Option ShadowAccountState
  new_trade_created : Bool
  caught_error : Option String := none
deriving DecidableEq

/-- Embedding of the simulated-signal handling of `run_shadow_cycle`
(shadow_runner.py lines 133-172).  For a CLOSE or CUT_LOSS signal the
source awaits `ShadowSimulator.close_all_positions` (line 138); that
attribute does not exist on the class (simulator.py defines only
`update_open_trades`), so Python raises AttributeError, which the
enclosing handler at line 190 catches — no trade is closed and no row is
created.  For HOLD it returns without saving; otherwise the new row is
saved. -/
def handle_shadow_signal (sig : String) (current_price : ℚ)
    (new_row : ShadowTradeRow) (trades : List ShadowTradeRow)
    (a? : Option ShadowAccountState) : ShadowCycleOutcome :=
  if sig = "CLOSE" ∨ sig = "CUT_LOSS" then
    if 0 < current_price then
      if shadowSimulatorMethods.contains "close_all_positions" then
        -- unreachable: were the method present, it would close the open
        -- trades for the signal's coin here
        { trades := trades, account := a?, new_trade_created := false }
      else
        { trades := trades, account := a?, new_trade_created := false,
          caught_error := some "AttributeError: type object ShadowSimulator has no attribute close_all_positions" }
    else
      { trades := trades, account := a?, new_trade_created := false }
  else if sig = "HOLD" then
    { trades := trades, account := a?, new_trade_created := false }
  else
    { trades := trades ++ [new_row], account := a?, new_trade_created := true }

/-! ### Signal / decision validation (nodes/analyst_v2.py, nodes/risk_v2.py,
models/schemas.py) -/

/-- JSON values: the abstract result of Python `json.loads`.  Objects are
association lists looked up on the first matching key. -/
inductive Json
  | null
  | bool (b : Bool)
  | num (q : ℚ)
  | str (s : String)
  | arr (xs : List Json)
  | obj (fields : List (String × Json))

/-- Lookup of a key in a JSON object's field list. -/
def jsonGet (fields : List (String × Json)) (key : String) : Option Json :=
  (fields.find? (fun kv => kv.1 = key)).map (fun kv => kv.2)

/-- Splitting at the first occurrence of `sep`: `some (before, after)`
when the nonempty separator occurs in the character list. -/
def breakOnSub (sep : List Char) : List Char → Option (List Char × List Char)
  | [] => none
  | c :: rest =>
    if sep.isPrefixOf (c :: rest) then some ([], (c :: rest).drop sep.length)
    else
      match breakOnSub sep rest with
      | some (a, b) => some (c :: a, b)
      | none => none

/-- Python `sep in s`. -/
def containsSub (sep cs : List Char) : Bool := (breakOnSub sep cs).isSome

/-- Characters after the first occurrence of `sep` (whole input when
absent; the absent case is never reached under the source's guards). -/
def afterFirst (sep cs : List Char) : List Char :=
  match breakOnSub sep cs with
  | some r => r.2
  | none => cs

/-- Characters before the first occurrence of `sep` (whole input when
absent), matching Python `s.split(sep)[0]`. -/
def takeUntil (sep cs : List Char) : List Char :=
  match breakOnSub sep cs with
  | some r => r.1
  | none => cs

/-- Whitespace test used by Python `str.strip` / `str.split()` (the ASCII
whitespace actually occurring in model output). -/
def isWsChar (c : Char) : Bool :=
  c = ' ' ∨ c = '\t' ∨ c = '\n' ∨ c = '\r'

/-- Python `str.strip()`. -/
def trimChars (cs : List Char) : List Char :=
  ((cs.dropWhile isWsChar).reverse.dropWhile isWsChar).reverse

/-- Opening brace character (written via its code point). -/
def lbrace : Char := Char.ofNat 123

/-- Closing brace character (written via its code point). -/
def rbrace : Char := Char.ofNat 125

/-- Python slice `cs[start:stop]` on a character list. -/
def sliceChars (cs : List Char) (start stop : Nat) : List Char :=
  (cs.drop start).take (stop - start)

/-- JSON-block extraction shared by `_parse_signal` (analyst_v2.py lines
576-587) and `_parse_decision` (risk_v2.py lines 193-203): a fenced
```json block, else any ``` fence, else the outermost brace span, else
`none` (the "No JSON found" fallback).  For the fenced branches,
`split(sep)[1].split("```")[0]` equals take-until-the-next-fence of the
text after the first fence, because every later occurrence of the opening
separator itself starts with the fence. -/
def extract_json_str (content : List Char) : Option (List Char) :=
  let sepJson := "```json".toList
  let sepTick := "```".toList
  if containsSub sepJson content then
    some (trimChars (takeUntil sepTick (afterFirst sepJson content)))
  else if containsSub sepTick content then
    some (trimChars (takeUntil sepTick (afterFirst sepTick content)))
  else if content.contains lbrace then
    let s := (content.findIdx? (fun c => c = lbrace)).getD 0
    let e :=
      match content.reverse.findIdx? (fun c => c = rbrace) with
      | some k => content.length - k
      | none => 0
    some (sliceChars content s e)
  else none

/-- Output dict of `_parse_signal`.  The fallback dicts of the source
carry only the first four keys; the remaining fields keep their model
defaults there. -/
structure SignalOut where
  signal : String
  coin : String
  confidence : ℚ
  reasoning : String
  entry_price : Option ℚ := none
  stop_loss : Option ℚ := none
  take_profit : Option ℚ := none
  timeframe : String := "1H"
deriving DecidableEq

/-- Output dict of `_parse_decision`. -/
structure DecisionOut where
  approved : Bool
  action : String
  size_usd : ℚ
  leverage : ℚ
  stop_loss : Option ℚ := none
  take_profit : Option ℚ := none
  invalidation_conditions : List String := []
  reason : String
deriving DecidableEq

/-- Python `str[:100]`. -/
def truncate100 (s : String) : String := String.mk (s.toList.take 100)

/-- Word count of Python `str.split()` (whitespace runs collapsed). -/
def wordCount (s : String) : Nat :=
  ((s.split isWsChar).filter (fun w => w ≠ "")).length

/-- Reading an optional float field as pydantic does: absent or JSON null
is `None`, a number is accepted, anything else fails. -/
def asOptNum (j : Option Json) (fieldName : String) : Except String (Option ℚ) :=
  match j with
  | none => .ok none
  | some .null => .ok none
  | some (.num q) => .ok (some q)
  | some _ => .error (fieldName ++ ": Input should be a valid number")

/-- Allowed values of `TradeSignal.signal` (schemas.py line 10). -/
def signalEnum : List String :=
  ["LONG", "SHORT", "HOLD", "CLOSE", "CUT_LOSS", "SCALE_OUT", "SCALE_IN"]

/-- Allowed values of `RiskDecision.action` (schemas.py line 37). -/
def actionEnum : List String :=
  ["OPEN_LONG", "OPEN_SHORT", "NO_TRADE", "CLOSE_LONG", "CLOSE_SHORT", "HOLD"]

/-- Embedding of `TradeSignal(**raw_data)` validation (schemas.py lines
4-30): required coin/signal/confidence/reasoning, confidence in [0,1],
reasoning of length at least 10 and at least 5 words, optional price
fields, timeframe defaulting to "1H", extra keys ignored.  Pydantic's
aggregated error report is abstracted to the first failing message. -/
def validate_trade_signal (fields : List (String × Json)) : Except String SignalOut := do
  let coin ←
    match jsonGet fields "coin" with
    | some (.str c) => .ok c
    | some _ => .error "coin: Input should be a valid string"
    | none => .error "coin: Field required"
  let signal ←
    match jsonGet fields "signal" with
    | some (.str s) =>
      if signalEnum.contains s then .ok s
      else .error "signal: Input should be LONG, SHORT, HOLD, CLOSE, CUT_LOSS, SCALE_OUT or SCALE_IN"
    | some _ => .error "signal: Input should be a valid string"
    | none => .error "signal: Field required"
  let confidence ←
    match jsonGet fields "confidence" with
    | some (.num q) =>
      if 0 ≤ q ∧ q ≤ 1 then .ok q
      else .error "confidence: Input should be less than or equal to 1 and greater than or equal to 0"
    | some _ => .error "confidence: Input should be a valid number"
    | none => .error "confidence: Field required"
  let entry_price ← asOptNum (jsonGet fields "entry_price") "entry_price"
  let stop_loss ← asOptNum (jsonGet fields "stop_loss") "stop_loss"
  let take_profit ← asOptNum (jsonGet fields "take_profit") "take_profit"
  let reasoning ←
    match jsonGet fields "reasoning" with
    | some (.str r) =>
      if r.length < 10 then .error "reasoning: String should have at least 10 characters"
      else if wordCount r < 5 then .error "reasoning: Value error, Reasoning must be descriptive"
      else .ok r
    | some _ => .error "reasoning: Input should be a valid string"
    | none => .error "reasoning: Field required"
  let timeframe ←
    match jsonGet fields "timeframe" with
    | some (.str t) => .ok t
    | some _ => .error "timeframe: Input should be a valid string"
    | none => .ok "1H"
  .ok { signal := signal, coin := coin, confidence := confidence,
        reasoning := reasoning, entry_price := entry_price,
        stop_loss := stop_loss, take_profit := take_profit,
        timeframe := timeframe }

/-- Embedding of `RiskDecision(**raw_data)` validation (schemas.py lines
32-49): required approved/action/size_usd/leverage/reason, size
nonnegative, leverage an integer in [1, 50], optional prices, condition
list defaulting to empty, extra keys ignored. -/
def validate_risk_decision (fields : List (String × Json)) : Except String DecisionOut := do
  let approved ←
    match jsonGet fields "approved" with
    | some (.bool b) => .ok b
    | some _ => .error "approved: Input should be a valid boolean"
    | none => .error "approved: Field required"
  let action ←
    match jsonGet fields "action" with
    | some (.str s) =>
      if actionEnum.contains s then .ok s
      else .error "action: Input should be OPEN_LONG, OPEN_SHORT, NO_TRADE, CLOSE_LONG, CLOSE_SHORT or HOLD"
    | some _ => .error "action: Input should be a valid string"
    | none => .error "action: Field required"
  let size_usd ←
    match jsonGet fields "size_usd" with
    | some (.num q) =>
      if 0 ≤ q then .ok q else .error "size_usd: Input should be greater than or equal to 0"
    | some _ => .error "size_usd: Input should be a valid number"
    | none => .error "size_usd: Field required"
  let leverage ←
    match jsonGet fields "leverage" with
    | some (.num q) =>
      if q.den = 1 then
        if 1 ≤ q ∧ q ≤ 50 then .ok q
        else .error "leverage: Input should be less than or equal to 50 and greater than or equal to 1"
      else .error "leverage: Input should be a valid integer"
    | some _ => .error "leverage: Input should be a valid integer"
    | none => .error "leverage: Field required"
  let stop_loss ← asOptNum (jsonGet fields "stop_loss") "stop_loss"
  let take_profit ← asOptNum (jsonGet fields "take_profit") "take_profit"
  let conds ←
    match jsonGet fields "invalidation_conditions" with
    | some (.arr xs) =>
      xs.foldr (fun x acc => do
        let rest ← acc
        match x with
        | .str s => .ok (s :: rest)
        | _ => .error "invalidation_conditions: Input should be a valid string") (.ok [])
    | some _ => .error "invalidation_conditions: Input should be a valid list"
    | none => .ok []
  let reason ←
    match jsonGet fields "reason" with
    | some (.str r) => .ok r
    | some _ => .error "reason: Input should be a valid string"
    | none => .error "reason: Field required"
  .ok { approved := approved, action := action, size_usd := size_usd,
        leverage := leverage, stop_loss := stop_loss,
        take_profit := take_profit, invalidation_conditions := conds,
        reason := reason }

/-- Embedding of `_parse_signal` (analyst_v2.py lines 573-609).
`jloads` abstracts Python's `json.loads` (standard library, outside the
repository); its `.error` message is the exception text.  A non-object
payload makes `raw_data.get` raise, which the outer handler turns into
the "Parse error" fallback; its message is likewise abstract.  The
function is total: every failure path yields a fallback dict. -/
def parse_signal (jloads : List Char → Except String Json)
    (content : List Char) (coin : String) : SignalOut :=
  match extract_json_str content with
  | none =>
    { signal := "HOLD", coin := coin, confidence := 0,
      reasoning := "Could not parse response: No JSON found" }
  | some js =>
    match jloads js with
    | .error e =>
      { signal := "HOLD", coin := coin, confidence := 0,
        reasoning := "Parse error: " ++ e }
    | .ok (.obj fields) =>
      let fields' :=
        if (fields.find? (fun kv => kv.1 = "coin")).isSome then fields
        else fields ++ [("coin", Json.str coin)]
      match validate_trade_signal fields' with
      | .ok out => out
      | .error err =>
        { signal := "HOLD", coin := coin, confidence := 0,
          reasoning := "Schema validation failed: " ++ truncate100 err ++ "..." }
    | .ok _ =>
      { signal := "HOLD", coin := coin, confidence := 0,
        reasoning := "Parse error: raw data is not a JSON object" }

/-- Key-alias normalization of `_parse_decision` (risk_v2.py lines
207-214): copy `decision` to `action` and `reasoning` to `reason` when
the target key is absent. -/
def normalize_decision_fields (fields : List (String × Json)) : List (String × Json) :=
  let f1 :=
    match jsonGet fields "decision", jsonGet fields "action" with
    | some v, none => fields ++ [("action", v)]
    | _, _ => fields
  match jsonGet f1 "reasoning", jsonGet f1 "reason" with
  | some v, none => f1 ++ [("reason", v)]
  | _, _ => f1

/-- Embedding of `_parse_decision` (risk_v2.py lines 189-233), with the
same abstractions as `parse_signal`. -/
def parse_decision (jloads : List Char → Except String Json)
    (content : List Char) : DecisionOut :=
  match extract_json_str content with
  | none =>
    { approved := false, action := "NO_TRADE",
      reason := "No JSON found in response", size_usd := 0, leverage := 1 }
  | some js =>
    match jloads js with
    | .error e =>
      { approved := false, action := "NO_TRADE",
        reason := "Parse error: " ++ e, size_usd := 0, leverage := 1 }
    | .ok (.obj fields) =>
      match validate_risk_decision (normalize_decision_fields fields) with
      | .ok out => out
      | .error err =>
        { approved := false, action := "NO_TRADE",
          reason := "Schema validation failed: " ++ truncate100 err,
          size_usd := 0, leverage := 1 }
    | .ok _ =>
      { approved := false, action := "NO_TRADE",
        reason := "Parse error: raw data is not a JSON object",
        size_usd := 0, leverage := 1 }

/-! ### Shared concrete inputs for theorems -/

/-- A HOLD analyst signal for BTC. -/
def holdSignal : SignalDict := { signal := some "HOLD", coin := some "BTC" }

/-- A CUT_LOSS analyst signal for BTC. -/
def cutSignal : SignalDict := { signal := some "CUT_LOSS", coin := some "BTC" }

/-- An APPROVE risk decision with a sized notional. -/
def approveRisk : RiskDict :=
  { decision := some "APPROVE", approved := some true,
    adjusted_size_usd := some 500, leverage := some 10 }

/-! ### C1 -/

/-- C1 counterexample: with an analyst HOLD signal and a risk decision of
CUT_LOSS, merge_node returns action EXECUTED (the emergency close runs
first, merge.py lines 52-63), not NO_TRADE as the claim states. -/
theorem C1_counterexample :
    (merge_node (some holdSignal) { decision := some "CUT_LOSS" } 0
        (fun _ => none) 1000).final.action = "EXECUTED" ∧
      ("EXECUTED" : String) ≠ "NO_TRADE" := by
  constructor
  · rfl
  · decide

/-- C1 amended: with a HOLD or absent analyst signal, merge_node returns
NO_TRADE for every risk decision except the two special ones handled
first: a normalized CUT_LOSS decision triggers the emergency close and
returns EXECUTED, and a RESCUE_DCA decision falls through to trade
building and returns EXECUTED with an order placement. -/
theorem C1_hold_paths (analyst? : Option SignalDict) (risk : RiskDict)
    (dsl : ℚ) (ps : Option String → Option String) (eqy : ℚ)
    (hsig : (analyst?.getD {}).signal = some "HOLD" ∨ (analyst?.getD {}).signal = none) :
    (normalized_decision risk ≠ some "CUT_LOSS" →
      normalized_decision risk ≠ some "RESCUE_DCA" →
      (merge_node analyst? risk dsl ps eqy).final.action = "NO_TRADE" ∧
      (merge_node analyst? risk dsl ps eqy).effects = []) ∧
    (normalized_decision risk = some "CUT_LOSS" →
      (merge_node analyst? risk dsl ps eqy).final.action = "EXECUTED" ∧
      (merge_node analyst? risk dsl ps eqy).effects =
        [.cutLossClose (coin_or_btc (analyst?.getD {}))]) ∧
    (normalized_decision risk = some "RESCUE_DCA" →
      (merge_node analyst? risk dsl ps eqy).final.action = "EXECUTED" ∧
      ∃ p, (merge_node analyst? risk dsl ps eqy).effects = [.placeOrder p]) := by
  have hne : ∀ s : String, (analyst?.getD {}).signal = some s → s = "HOLD" := by
    intro s hs
    rcases hsig with h | h
    · rw [hs] at h; exact Option.some_inj.mp h
    · rw [hs] at h; exact absurd h (by simp)
  refine ⟨?_, ?_, ?_⟩
  · intro h1 h2
    have hclose : (analyst?.getD {}).signal ≠ some "CLOSE" := by
      intro hc; exact absurd (hne _ hc) (by decide)
    have hcut : (analyst?.getD {}).signal ≠ some "CUT_LOSS" := by
      intro hc; exact absurd (hne _ hc) (by decide)
    have hso : (analyst?.getD {}).signal ≠ some "SCALE_OUT" := by
      intro hc; exact absurd (hne _ hc) (by decide)
    constructor <;>
      simp [merge_node, h1, h2, hclose, hcut, hso, hsig]
  · intro h1
    constructor <;> simp [merge_node, h1]
  · intro h1
    have h2 : normalized_decision risk ≠ some "CUT_LOSS" := by
      rw [h1]; decide
    have hclose : (analyst?.getD {}).signal ≠ some "CLOSE" := by
      intro hc; exact absurd (hne _ hc) (by decide)
    have hcut : (analyst?.getD {}).signal ≠ some "CUT_LOSS" := by
      intro hc; exact absurd (hne _ hc) (by decide)
    have hso : (analyst?.getD {}).signal ≠ some "SCALE_OUT" := by
      intro hc; exact absurd (hne _ hc) (by decide)
    have hrej : normalized_decision risk ≠ some "REJECT" := by rw [h1]; decide
    have hnt : normalized_decision risk ≠ some "NO_TRADE" := by rw [h1]; decide
    have hsc : normalized_decision risk ≠ some "SCALE_OUT" := by rw [h1]; decide
    have hrd : normalized_decision risk ≠ some "REDUCE" := by rw [h1]; decide
    constructor
    · simp [merge_node, h1, h2, hclose, hcut, hso, hrej, hnt, hsc, hrd]
    · exact ⟨build_trade_params (analyst?.getD {}) risk dsl ps eqy,
        by simp [merge_node, h1, h2, hclose, hcut, hso, hrej, hnt, hsc, hrd]⟩

/-- C1 witness: the amended theorem applied at a HOLD signal with a
REJECT risk decision yields NO_TRADE. -/
theorem C1_hold_paths_witness :
    (merge_node (some holdSignal) { decision := some "REJECT" } 0
        (fun _ => none) 100).final.action = "NO_TRADE" := by
  have h := C1_hold_paths (some holdSignal) { decision := some "REJECT" } 0
    (fun _ => none) 100 (Or.inl rfl)
  exact (h.1 (by decide) (by decide)).1

/-! ### C2 -/

/-- C2: an analyst CLOSE or CUT_LOSS signal makes merge_node run the
emergency close path and return EXECUTED for every risk decision
whatsoever (merge.py lines 52-94); in particular the approved flag and
action of the risk decision are never consulted, and no entry order is
placed. -/
theorem C2_analyst_emergency_close (analyst? : Option SignalDict)
    (risk : RiskDict) (dsl : ℚ) (ps : Option String → Option String) (eqy : ℚ)
    (hsig : (analyst?.getD {}).signal = some "CLOSE" ∨
            (analyst?.getD {}).signal = some "CUT_LOSS") :
    (merge_node analyst? risk dsl ps eqy).final.action = "EXECUTED" ∧
    (merge_node analyst? risk dsl ps eqy).effects =
      [.cutLossClose (coin_or_btc (analyst?.getD {}))] := by
  by_cases hd : normalized_decision risk = some "CUT_LOSS"
  · constructor <;> simp [merge_node, hd]
  · rcases hsig with h | h
    · constructor <;> simp [merge_node, hd, h]
    · have hclose : (analyst?.getD {}).signal ≠ some "CLOSE" := by
        rw [h]; decide
      constructor <;> simp [merge_node, hd, h, hclose]

/-- C2 witness: analyst CUT_LOSS with an APPROVE risk decision performs
the close, not an entry. -/
theorem C2_analyst_emergency_close_witness :
    (merge_node (some cutSignal) approveRisk 0 (fun _ => none) 5000).final.action
        = "EXECUTED" ∧
    (merge_node (some cutSignal) approveRisk 0 (fun _ => none) 5000).effects
        = [.cutLossClose "BTC"] := by
  have h := C2_analyst_emergency_close (some cutSignal) approveRisk 0
    (fun _ => none) 5000 (Or.inr rfl)
  exact h

/-! ### C3 -/

/-- A LONG analyst signal for BTC. -/
def longSignal : SignalDict := { signal := some "LONG", coin := some "BTC" }

/-- C3 counterexample: at equity $30 with an upstream suggestion of
$2000 the override does not fire, so leverage stays at the risk
decision's 20 — not the instrument maximum; and at equity $1 (sub-$10)
with suggestion $5 the built notional is $36, below the $100 floor the
claim asserts. -/
theorem C3_counterexample :
    (build_trade_params longSignal
        { adjusted_size_usd := some 2000, leverage := some 20 } 0
        (fun _ => none) 30).leverage = 20 ∧
      (20 : ℚ) ≠ MAX_LEVERAGE ∧
    (build_trade_params longSignal
        { adjusted_size_usd := some 5 } 0
        (fun _ => none) 1).size = 36 ∧
      (36 : ℚ) < 100 := by
  refine ⟨?_, by norm_num [MAX_LEVERAGE], ?_, by norm_num⟩
  · norm_num [build_trade_params, ladder_override, pyOrQ, MAX_LEVERAGE,
      LADDER_SAFETY, MIN_ORDER_SIZE]
  · norm_num [build_trade_params, ladder_override, pyOrQ, MAX_LEVERAGE,
      LADDER_SAFETY, MIN_ORDER_SIZE]

/-- C3 amended: for equity below $50, the ladder override fires exactly
when the upstream suggestion is below equity × 40 × 0.9; then leverage is
forced to 40 and the notional becomes max (equity × 40 × 0.9) 12, which
is at least the suggestion, at least the $12 exchange minimum and at
least 90 percent of max-leverage equity.  Otherwise the suggestion and
upstream leverage pass through unchanged.  The override never lowers the
suggested size.  (There is no $100 floor for sub-$10 equity in the
code.) -/
theorem C3_ladder_override_spec (analyst : SignalDict) (risk : RiskDict)
    (dsl : ℚ) (ps : Option String → Option String) (eqy : ℚ)
    (heq : eqy < 50) :
    let size0 := pyOrQ risk.adjusted_size_usd (analyst.size_usd.getD 1000)
    let lev0 := risk.leverage.getD 20
    let p := build_trade_params analyst risk dsl ps eqy
    size0 ≤ p.size ∧
    (size0 < eqy * 40 * (9/10) →
      p.leverage = 40 ∧ p.size = max (eqy * 40 * (9/10)) 12 ∧
      12 ≤ p.size ∧ eqy * 40 * (9/10) ≤ p.size) ∧
    (eqy * 40 * (9/10) ≤ size0 → p.size = size0 ∧ p.leverage = lev0) := by
  intro size0 lev0 p
  have hps : p.size = (ladder_override eqy size0 lev0).1 ∧
      p.leverage = (ladder_override eqy size0 lev0).2 := by
    constructor <;> rfl
  by_cases hlt : size0 < eqy * 40 * (9/10)
  · have hov : ladder_override eqy size0 lev0 =
        (max (eqy * 40 * (9/10)) 12, 40) := by
      simp only [ladder_override, MAX_LEVERAGE, LADDER_SAFETY, MIN_ORDER_SIZE]
      rw [if_pos heq, if_pos hlt]
    refine ⟨?_, fun _ => ⟨?_, ?_, ?_, ?_⟩, fun hge => absurd hlt (not_lt.mpr hge)⟩
    · rw [hps.1, hov]
      exact le_trans (le_of_lt hlt) (le_max_left _ _)
    · rw [hps.2, hov]
    · rw [hps.1, hov]
    · rw [hps.1, hov]; exact le_max_right _ _
    · rw [hps.1, hov]; exact le_max_left _ _
  · have hov : ladder_override eqy size0 lev0 = (size0, lev0) := by
      simp only [ladder_override, MAX_LEVERAGE, LADDER_SAFETY, MIN_ORDER_SIZE]
      rw [if_pos heq, if_neg hlt]
    refine ⟨?_, fun hlt2 => absurd hlt2 hlt, fun _ => ⟨?_, ?_⟩⟩
    · rw [hps.1, hov]
    · rw [hps.1, hov]
    · rw [hps.2, hov]

/-- C3 witness: the spec scenario — equity $30, upstream size $50 — where
the override fires and yields notional 1080 and leverage 40. -/
theorem C3_ladder_override_spec_witness :
    (build_trade_params longSignal
        { adjusted_size_usd := some 50 } 0 (fun _ => none) 30).size = 1080 ∧
    (build_trade_params longSignal
        { adjusted_size_usd := some 50 } 0 (fun _ => none) 30).leverage = 40 := by
  have h := C3_ladder_override_spec longSignal { adjusted_size_usd := some 50 }
    0 (fun _ => none) 30 (by norm_num)
  have h2 := (h.2.1 (by norm_num [pyOrQ]))
  refine ⟨?_, h2.1⟩
  rw [h2.2.1]
  norm_num [pyOrQ]

/-! ### C4 -/

/-- C4: close_trade stamps closed_at, exit_price and close_reason on the
found row and computes `pnl_pct` directionally — `(exit - entry)/entry`
for LONG, `(entry - exit)/entry` otherwise — and
`pnl_usd = size_usd * pnl_pct * leverage` exactly
(repository.py lines 89-116). -/
theorem C4_close_trade_pnl (db : List TradeRow) (tid : Nat)
    (ex : ℚ) (reason : String) (now : ℚ) (t : TradeRow)
    (hfind : db.find? (fun u => u.id = tid) = some t)
    (hentry : t.entry_price ≠ 0) :
    ∃ t', (close_trade db tid ex reason now).1 = some t' ∧
      t'.closed_at = some now ∧
      t'.exit_price = some ex ∧
      t'.close_reason = some reason ∧
      (t.direction = "LONG" →
        t'.pnl_pct = some ((ex - t.entry_price) / t.entry_price)) ∧
      (t.direction = "SHORT" →
        t'.pnl_pct = some ((t.entry_price - ex) / t.entry_price)) ∧
      ∃ pct, t'.pnl_pct = some pct ∧
        t'.pnl_usd = some (t.size_usd * pct * t.leverage) := by
  set pct0 : ℚ :=
    if t.direction = "LONG" then (ex - t.entry_price) / t.entry_price
    else (t.entry_price - ex) / t.entry_price with hpct0
  have hres : (close_trade db tid ex reason now).1 = some { t with closed_at := some now, exit_price := some ex, close_reason := some reason, pnl_pct := some pct0, pnl_usd := some (t.size_usd * pct0 * t.leverage) } := by
    simp only [close_trade, hfind]
  refine ⟨_, hres, rfl, rfl, rfl, ?_, ?_, ⟨pct0, rfl, rfl⟩⟩
  · intro hl; simp [hpct0, hl]
  · intro hs
    have hnl : ¬ (t.direction = "LONG") := by rw [hs]; decide
    simp [hpct0, hnl]

/-- A concrete open BTC LONG trade row. -/
def c4Trade : TradeRow :=
  { id := 7, coin := some "BTC", direction := "LONG", entry_price := 100,
    size_usd := 500, leverage := 10, opened_at := 0 }

/-- C4 witness: closing the concrete LONG trade at exit 110 gives
pnl_pct 10 percent and pnl_usd 500. -/
theorem C4_close_trade_pnl_witness :
    ∃ t', (close_trade [c4Trade] 7 110 "TAKE_PROFIT" 5).1 = some t' ∧
      t'.pnl_pct = some (1/10) ∧ t'.pnl_usd = some 500 := by
  have h := C4_close_trade_pnl [c4Trade] 7 110 "TAKE_PROFIT" 5 c4Trade
    (by decide) (by norm_num [c4Trade])
  obtain ⟨t', h1, _, _, _, hlong, _, ⟨pct, hp, hu⟩⟩ := h
  refine ⟨t', h1, ?_, ?_⟩
  · have := hlong rfl
    rw [this]
    norm_num [c4Trade]
  · have hl := hlong rfl
    rw [hp] at hl
    have hpct : pct = 1/10 := by
      have := Option.some_inj.mp hl
      rw [this]; norm_num [c4Trade]
    rw [hu, hpct]
    norm_num [c4Trade]

/-! ### C5 -/

/-- A concrete shadow account with $1000 equity. -/
def c5Account : ShadowAccountState := { initial_equity := 1000, current_equity := 1000 }

/-- The spec scenario's open LONG shadow trade (entry $100, stop $95)
with parametric notional, leverage and open timestamp. -/
def c5TradeGen (s l τ : ℚ) : ShadowTradeRow :=
  { id := 1, timestamp := τ, coin := "BTC", signal := "LONG", confidence := 1/2,
    entry_price := 100, size_usd := s, leverage := l, stop_loss := some 95 }

/-- The scenario trade with notional 100 and leverage 1. -/
def c5Trade : ShadowTradeRow := c5TradeGen 100 1 0

/-- C5 counterexample: evaluating the open-trade check at price 94 closes
the scenario trade at the STOP PRICE 95, so the persisted net PnL is
-5.08, not the value the claim's gross formula (exit at the current price
94) would give. -/
theorem C5_counterexample :
    ((update_open_trades 60 94 "BTC" [c5Trade] (some c5Account)).1.map
        (fun t => t.exit_price) = [some 95]) ∧
    ((update_open_trades 60 94 "BTC" [c5Trade] (some c5Account)).1.map
        (fun t => t.pnl_usd) = [some (-508/100)]) ∧
    (-508/100 : ℚ) ≠
      round2 ((94 - 100)/100 * 100 * 1 - 100 * SIMULATED_FEE_RATE * 2
        - 100 * SIMULATED_SLIPPAGE_RATE * 2) := by
  refine ⟨?_, ?_, ?_⟩
  · norm_num [update_open_trades, c5Trade, c5TradeGen, c5Account,
      shadow_trigger, qTruthy, close_shadow_trade, update_account_opt,
      round2, round1, round_eq, SIMULATED_FEE_RATE, SIMULATED_SLIPPAGE_RATE]
  · norm_num [update_open_trades, c5Trade, c5TradeGen, c5Account,
      shadow_trigger, qTruthy, close_shadow_trade, update_account_opt,
      round2, round1, round_eq, SIMULATED_FEE_RATE, SIMULATED_SLIPPAGE_RATE]
  · norm_num [round2, round_eq, SIMULATED_FEE_RATE, SIMULATED_SLIPPAGE_RATE]

/-- C5 amended: at price 94 the LONG trade's stop (price ≤ stop) fires and
the trade closes at the stop price 95: gross PnL is
(95 − 100)/100 × notional × leverage, round-trip fees and slippage are
deducted, the row persists the net rounded to cents, the account adds the
unrounded net, and losing_trades increments by exactly 1 (the net is
negative).  At price 96 (above the stop, no target set) nothing closes —
the trigger test is directional. -/
theorem C5_stop_close_spec (s l τ now : ℚ) (a : ShadowAccountState)
    (hs : 0 < s) (hl : 0 < l) :
    update_open_trades now 94 "BTC" [c5TradeGen s l τ] (some a) =
      ([{ c5TradeGen s l τ with exit_price := some 95, pnl_usd := some (round2 ((95 - 100)/100 * s * l - s * SIMULATED_FEE_RATE * 2 - s * SIMULATED_SLIPPAGE_RATE * 2)), pnl_percent := some (round2 ((95 - 100)/100 * l * 100)), fees_usd := some (round2 (s * SIMULATED_FEE_RATE * 2)), slippage_usd := some (round2 (s * SIMULATED_SLIPPAGE_RATE * 2)), duration_minutes := some (round1 ((now - τ) / 60)) }],
        some (update_account_after_trade a ((95 - 100)/100 * s * l)
          (s * SIMULATED_FEE_RATE * 2) (s * SIMULATED_SLIPPAGE_RATE * 2) false)) ∧
    (95 - 100)/100 * s * l - s * SIMULATED_FEE_RATE * 2
        - s * SIMULATED_SLIPPAGE_RATE * 2 < 0 ∧
    (update_account_after_trade a ((95 - 100)/100 * s * l)
        (s * SIMULATED_FEE_RATE * 2) (s * SIMULATED_SLIPPAGE_RATE * 2)
        false).losing_trades = a.losing_trades + 1 ∧
    (update_account_after_trade a ((95 - 100)/100 * s * l)
        (s * SIMULATED_FEE_RATE * 2) (s * SIMULATED_SLIPPAGE_RATE * 2)
        false).winning_trades = a.winning_trades ∧
    (update_account_after_trade a ((95 - 100)/100 * s * l)
        (s * SIMULATED_FEE_RATE * 2) (s * SIMULATED_SLIPPAGE_RATE * 2)
        false).current_equity = a.current_equity +
      ((95 - 100)/100 * s * l - s * SIMULATED_FEE_RATE * 2
        - s * SIMULATED_SLIPPAGE_RATE * 2) ∧
    update_open_trades now 96 "BTC" [c5TradeGen s l τ] (some a) =
      ([c5TradeGen s l τ], some a) := by
  have hne : (95 - 100)/100 * s * l - s * SIMULATED_FEE_RATE * 2
      - s * SIMULATED_SLIPPAGE_RATE * 2 < 0 := by
    have hmul : 0 < s * l := mul_pos hs hl
    simp only [SIMULATED_FEE_RATE, SIMULATED_SLIPPAGE_RATE]
    nlinarith
  have hw : ¬ (0 < (95 - 100)/100 * s * l - s * SIMULATED_FEE_RATE * 2
      - s * SIMULATED_SLIPPAGE_RATE * 2) := not_lt.mpr hne.le
  refine ⟨?_, hne, ?_, ?_, ?_, ?_⟩
  · simp only [update_open_trades, c5TradeGen, close_shadow_trade,
      shadow_trigger, qTruthy, update_account_opt]
    norm_num [hs.ne', hl.ne', hw]
    have hdf : (s * SIMULATED_SLIPPAGE_RATE * 2 <
        -(20⁻¹ * s * l) - s * SIMULATED_FEE_RATE * 2) = False := by
      simp only [eq_iff_iff, iff_false, not_lt]
      have h95 : (95 - 100) / 100 * s * l - s * SIMULATED_FEE_RATE * 2
          - s * SIMULATED_SLIPPAGE_RATE * 2
          = (-(20⁻¹ * s * l) - s * SIMULATED_FEE_RATE * 2)
            - s * SIMULATED_SLIPPAGE_RATE * 2 := by ring
      rw [h95] at hw
      linarith [not_lt.mp hw]
    simp [hdf]
  · simp [update_account_after_trade]
  · simp [update_account_after_trade]
  · simp [update_account_after_trade]
  · simp only [update_open_trades, c5TradeGen, shadow_trigger, qTruthy]
    norm_num

/-- C5 witness: the amended theorem at notional 100 and leverage 1 gives
net PnL -5.08 and one more losing trade. -/
theorem C5_stop_close_spec_witness :
    (update_open_trades 60 94 "BTC" [c5TradeGen 100 1 0] (some c5Account)).2 =
      some (update_account_after_trade c5Account ((95 - 100)/100 * 100 * 1)
        (100 * SIMULATED_FEE_RATE * 2) (100 * SIMULATED_SLIPPAGE_RATE * 2) false) := by
  have h := C5_stop_close_spec 100 1 0 60 c5Account (by norm_num) (by norm_num)
  rw [h.1]

/-! ### C6 -/

/-- C6 evaluation at the failing input: with one open BTC shadow trade
and a simulated CLOSE signal at price 100, the cycle catches an
AttributeError (`ShadowSimulator.close_all_positions` does not exist) and
leaves the trade open; no new row is created either. -/
theorem C6_close_signal_bug :
    (handle_shadow_signal "CLOSE" 100 c5Trade [c5Trade] (some c5Account)).trades
        = [c5Trade] ∧
    c5Trade.pnl_usd = none ∧
    (handle_shadow_signal "CLOSE" 100 c5Trade [c5Trade]
        (some c5Account)).new_trade_created = false ∧
    (handle_shadow_signal "CLOSE" 100 c5Trade [c5Trade]
        (some c5Account)).caught_error.isSome = true := by
  refine ⟨rfl, rfl, rfl, rfl⟩

/-! ### C7 -/

/-- A shadow trade whose net PnL has more than two decimal places:
notional 111, leverage 1, LONG entry 100, stop 95. -/
def c7Trade : ShadowTradeRow :=
  { id := 2, timestamp := 0, coin := "BTC", signal := "LONG", confidence := 1/2,
    entry_price := 100, size_usd := 111, leverage := 1, stop_loss := some 95 }

/-- C7 counterexample: closing c7Trade at its stop persists
pnl_usd = -5.64 (net -5.6388 rounded to cents) while the account adds the
unrounded -5.6388, so current_equity (994.3612) differs from
initial_equity plus the persisted pnl_usd (994.36). -/
theorem C7_counterexample :
    ((update_open_trades 60 94 "BTC" [c7Trade] (some c5Account)).1.map
        (fun t => t.pnl_usd) = [some (-141/25)]) ∧
    ((update_open_trades 60 94 "BTC" [c7Trade] (some c5Account)).2.map
        (fun a => a.current_equity) = some (2485903/2500)) ∧
    ¬ ((2485903/2500 : ℚ) = c5Account.initial_equity + (-141/25)) := by
  refine ⟨?_, ?_, ?_⟩
  · norm_num [update_open_trades, c7Trade, c5Account, shadow_trigger,
      qTruthy, close_shadow_trade, update_account_opt,
      update_account_after_trade, round2, round1, round_eq,
      SIMULATED_FEE_RATE, SIMULATED_SLIPPAGE_RATE]
  · norm_num [update_open_trades, c7Trade, c5Account, shadow_trigger,
      qTruthy, close_shadow_trade, update_account_opt,
      update_account_after_trade, round2, round1, round_eq,
      SIMULATED_FEE_RATE, SIMULATED_SLIPPAGE_RATE]
  · norm_num [c5Account]

/-- C7 amended: over any sequence of account-close events, the account
updated by `update_account_after_trade` satisfies the accumulation law
with the UNROUNDED net PnL (pnl − fees − slippage of each event):
current_equity = initial_equity + Σ net, initial_equity never changes,
and the trade/win/loss counters change together with the equity —
wins where is_winner (net > 0 at the call sites), losses otherwise. -/
theorem C7_equity_accumulation (seed : ℚ) (evs : List CloseEvent) :
    (apply_close_events (new_account seed) evs).initial_equity = seed ∧
    (apply_close_events (new_account seed) evs).current_equity =
      (apply_close_events (new_account seed) evs).initial_equity +
        (evs.map (fun e => e.pnl - e.fees - e.slippage)).sum ∧
    (apply_close_events (new_account seed) evs).total_trades = evs.length ∧
    (apply_close_events (new_account seed) evs).winning_trades =
      evs.countP (fun e => e.is_winner) ∧
    (apply_close_events (new_account seed) evs).losing_trades =
      evs.countP (fun e => !e.is_winner) := by
  have key : ∀ (l : List CloseEvent) (a : ShadowAccountState),
      (apply_close_events a l).initial_equity = a.initial_equity ∧
      (apply_close_events a l).current_equity = a.current_equity +
        (l.map (fun e => e.pnl - e.fees - e.slippage)).sum ∧
      (apply_close_events a l).total_trades = a.total_trades + l.length ∧
      (apply_close_events a l).winning_trades = a.winning_trades +
        l.countP (fun e => e.is_winner) ∧
      (apply_close_events a l).losing_trades = a.losing_trades +
        l.countP (fun e => !e.is_winner) := by
    intro l
    induction l with
    | nil => intro a; simp [apply_close_events]
    | cons e rest ih =>
      intro a
      have step : apply_close_events a (e :: rest) =
          apply_close_events
            (update_account_after_trade a e.pnl e.fees e.slippage e.is_winner)
            rest := rfl
      obtain ⟨h1, h2, h3, h4, h5⟩ :=
        ih (update_account_after_trade a e.pnl e.fees e.slippage e.is_winner)
      rw [step]
      refine ⟨?_, ?_, ?_, ?_, ?_⟩
      · rw [h1]; rfl
      · rw [h2]; simp [update_account_after_trade]; ring
      · rw [h3]; simp [update_account_after_trade, List.length_cons]; omega
      · rw [h4]
        by_cases hwin : e.is_winner <;>
          simp [update_account_after_trade, List.countP_cons, hwin] <;> omega
      · rw [h5]
        by_cases hwin : e.is_winner <;>
          simp [update_account_after_trade, List.countP_cons, hwin] <;> omega
  obtain ⟨h1, h2, h3, h4, h5⟩ := key evs (new_account seed)
  refine ⟨?_, ?_, ?_, ?_, ?_⟩
  · rw [h1]; rfl
  · rw [h2, h1]; rfl
  · rw [h3]; simp [new_account]
  · rw [h4]; simp [new_account]
  · rw [h5]; simp [new_account]

/-! ### C8 -/

/-- C8: both parsers are total and fail closed.  For every input string
and every behavior of the underlying JSON loader, `parse_signal` returns
either the dump of a signal that passed schema validation, or a fallback
with signal HOLD and confidence 0 whose reasoning embeds the error (the
schema-validation fallback embeds the first 100 characters of the
validation error); under the same conditions `parse_decision` returns
either a validated decision or a fallback with approved = false and
action NO_TRADE. -/
theorem C8_parsers_fail_closed
    (jl jl2 : List Char → Except String Json)
    (content content2 : List Char) (coin : String) :
    ((∃ fields, validate_trade_signal fields = .ok (parse_signal jl content coin)) ∨
      ((parse_signal jl content coin).signal = "HOLD" ∧
       (parse_signal jl content coin).confidence = 0 ∧
       ((parse_signal jl content coin).reasoning =
            "Could not parse response: No JSON found" ∨
        (∃ e, (parse_signal jl content coin).reasoning = "Parse error: " ++ e) ∨
        (∃ e, (parse_signal jl content coin).reasoning =
            "Schema validation failed: " ++ truncate100 e ++ "...")))) ∧
    ((∃ fields, validate_risk_decision fields = .ok (parse_decision jl2 content2)) ∨
      ((parse_decision jl2 content2).approved = false ∧
       (parse_decision jl2 content2).action = "NO_TRADE")) := by
  constructor
  · cases hE : extract_json_str content with
    | none =>
      right
      refine ⟨?_, ?_, Or.inl ?_⟩ <;> simp [parse_signal, hE]
    | some js =>
      cases hJ : jl js with
      | error e =>
        right
        refine ⟨?_, ?_, Or.inr (Or.inl ⟨e, ?_⟩)⟩ <;> simp [parse_signal, hE, hJ]
      | ok j =>
        cases j with
        | obj fields =>
          cases hV : validate_trade_signal
              (if (fields.find? (fun kv => kv.1 = "coin")).isSome then fields
               else fields ++ [("coin", Json.str coin)]) with
          | ok out =>
            left
            refine ⟨if (fields.find? (fun kv => kv.1 = "coin")).isSome then fields
               else fields ++ [("coin", Json.str coin)], ?_⟩
            simp [parse_signal, hE, hJ, hV]
          | error err =>
            right
            refine ⟨?_, ?_, Or.inr (Or.inr ⟨err, ?_⟩)⟩ <;>
              simp [parse_signal, hE, hJ, hV]
        | null =>
          right
          refine ⟨?_, ?_, Or.inr (Or.inl ⟨"raw data is not a JSON object", ?_⟩)⟩ <;>
            simp [parse_signal, hE, hJ]
        | bool b =>
          right
          refine ⟨?_, ?_, Or.inr (Or.inl ⟨"raw data is not a JSON object", ?_⟩)⟩ <;>
            simp [parse_signal, hE, hJ]
        | num q =>
          right
          refine ⟨?_, ?_, Or.inr (Or.inl ⟨"raw data is not a JSON object", ?_⟩)⟩ <;>
            simp [parse_signal, hE, hJ]
        | str s =>
          right
          refine ⟨?_, ?_, Or.inr (Or.inl ⟨"raw data is not a JSON object", ?_⟩)⟩ <;>
            simp [parse_signal, hE, hJ]
        | arr xs =>
          right
          refine ⟨?_, ?_, Or.inr (Or.inl ⟨"raw data is not a JSON object", ?_⟩)⟩ <;>
            simp [parse_signal, hE, hJ]
  · cases hE : extract_json_str content2 with
    | none =>
      right
      refine ⟨?_, ?_⟩ <;> simp [parse_decision, hE]
    | some js =>
      cases hJ : jl2 js with
      | error e =>
        right
        refine ⟨?_, ?_⟩ <;> simp [parse_decision, hE, hJ]
      | ok j =>
        cases j with
        | obj fields =>
          cases hV : validate_risk_decision (normalize_decision_fields fields) with
          | ok out =>
            left
            refine ⟨normalize_decision_fields fields, ?_⟩
            simp [parse_decision, hE, hJ, hV]
          | error err =>
            right
            refine ⟨?_, ?_⟩ <;> simp [parse_decision, hE, hJ, hV]
        | null =>
          right
          refine ⟨?_, ?_⟩ <;> simp [parse_decision, hE, hJ]
        | bool b =>
          right
          refine ⟨?_, ?_⟩ <;> simp [parse_decision, hE, hJ]
        | num q =>
          right
          refine ⟨?_, ?_⟩ <;> simp [parse_decision, hE, hJ]
        | str s =>
          right
          refine ⟨?_, ?_⟩ <;> simp [parse_decision, hE, hJ]
        | arr xs =>
          right
          refine ⟨?_, ?_⟩ <;> simp [parse_decision, hE, hJ]

/-! ### C9 -/

/-- Updating only plan rows of one trade id leaves the plans of every
other trade id unchanged. -/
lemma filter_update_other (l : List PlanRow) (tid : Nat)
    (upd : PlanRow → PlanRow) (h : ∀ p, (upd p).trade_id = p.trade_id) :
    (l.map (fun p => if p.trade_id = tid then upd p else p)).filter
        (fun p => p.trade_id ≠ tid) =
      l.filter (fun p => p.trade_id ≠ tid) := by
  induction l with
  | nil => rfl
  | cons p rest ih =>
    simp only [ne_eq, decide_not] at ih
    by_cases hp : p.trade_id = tid
    · simp [List.filter_cons, hp, h, ih]
    · simp [List.filter_cons, hp, ih]

/-- C9: when an open trade for the coin already exists, `save_trade_to_db`
leaves the trade table completely unchanged (so the existing row's
size_usd, leverage, direction, entry_price and opened_at are untouched
and no second open row appears) and only the exit plan of that trade can
change: plans of every other trade id are preserved. -/
theorem C9_existing_trade_frame (params : TradeParams) (analyst : SignalDict)
    (risk : RiskDict) (result_px : Option ℚ) (now : ℚ) (db : TradeDB)
    (t : TradeRow)
    (hfind : db.trades.find? (fun u => u.coin = params.coin ∧ u.closed_at = none)
        = some t) :
    (save_trade_to_db params analyst risk result_px now db).trades = db.trades ∧
    open_count params.coin
        (save_trade_to_db params analyst risk result_px now db).trades =
      open_count params.coin db.trades ∧
    (save_trade_to_db params analyst risk result_px now db).plans.filter
        (fun p => p.trade_id ≠ t.id) =
      db.plans.filter (fun p => p.trade_id ≠ t.id) := by
  cases hp : db.plans.find? (fun p => p.trade_id = t.id) with
  | some pl =>
    have htr : (save_trade_to_db params analyst risk result_px now db).trades
        = db.trades := by
      simp only [save_trade_to_db, hfind, hp]
    refine ⟨htr, by rw [htr], ?_⟩
    have hplans : (save_trade_to_db params analyst risk result_px now db).plans
        = db.plans.map (fun p =>
            if p.trade_id = t.id then
              { p with
                stop_loss_pct := match risk.exit_plan.stop_loss_pct with
                  | some v => some v
                  | none => p.stop_loss_pct
                take_profit_pct := match risk.exit_plan.take_profit_pct with
                  | some v => some v
                  | none => p.take_profit_pct
                invalidation_conditions :=
                  if risk.exit_plan.invalidation_conditions ≠ [] then
                    risk.exit_plan.invalidation_conditions
                  else p.invalidation_conditions }
            else p) := by
      simp only [save_trade_to_db, hfind, hp]
    rw [hplans]
    exact filter_update_other _ _ _ (fun p => rfl)
  | none =>
    have htr : (save_trade_to_db params analyst risk result_px now db).trades
        = db.trades := by
      simp only [save_trade_to_db, hfind, hp]
    refine ⟨htr, by rw [htr], ?_⟩
    have hplans : (save_trade_to_db params analyst risk result_px now db).plans
        = db.plans ++
          [{ trade_id := t.id
             stop_loss_pct := risk.exit_plan.stop_loss_pct
             take_profit_pct := risk.exit_plan.take_profit_pct
             invalidation_conditions := risk.exit_plan.invalidation_conditions
             status := "ACTIVE" }] := by
      simp only [save_trade_to_db, hfind, hp]
    rw [hplans, List.filter_append]
    simp

/-- C9 witness: a database holding one open ETH trade keeps its trade
rows unchanged when a later cycle saves new parameters for ETH. -/
theorem C9_existing_trade_frame_witness :
    (save_trade_to_db
        { coin := some "ETH", is_buy := true, size := 40, size_type := "usd",
          sl_pct := 2/100, tp_pct := 5/100, leverage := 10 }
        longSignal approveRisk none 9
        { trades := [{ id := 3, coin := some "ETH", direction := "LONG",
                       entry_price := 2000, size_usd := 25, leverage := 5,
                       opened_at := 1 }],
          plans := [], next_id := 4 }).trades =
      [{ id := 3, coin := some "ETH", direction := "LONG",
         entry_price := 2000, size_usd := 25, leverage := 5,
         opened_at := 1 }] := by
  have h := C9_existing_trade_frame
    { coin := some "ETH", is_buy := true, size := 40, size_type := "usd",
      sl_pct := 2/100, tp_pct := 5/100, leverage := 10 }
    longSignal approveRisk none 9
    { trades := [{ id := 3, coin := some "ETH", direction := "LONG",
                   entry_price := 2000, size_usd := 25, leverage := 5,
                   opened_at := 1 }],
      plans := [], next_id := 4 }
    { id := 3, coin := some "ETH", direction := "LONG",
      entry_price := 2000, size_usd := 25, leverage := 5, opened_at := 1 }
    (by decide)
  exact h.1

/-! ### C10 -/

/-- C10: the emergency close helper ignores its coin argument entirely —
results are identical for any two coins — and the only tool it can ever
invoke is `close_all_positions`, called with no coin argument exactly
when that tool is available; a per-coin `close_position` call is never
attempted. -/
theorem C10_cut_loss_ignores_coin (coin coin' : String) (tools : List String)
    (invoke_ok : Bool) (err_msg : String) :
    execute_cut_loss coin tools invoke_ok err_msg =
      execute_cut_loss coin' tools invoke_ok err_msg ∧
    (execute_cut_loss coin tools invoke_ok err_msg).2 =
      (if tools.contains "close_all_positions" then
        [{ name := "close_all_positions", args_coin := none }]
      else []) ∧
    ((execute_cut_loss coin tools invoke_ok err_msg).2.map
        (fun i => i.name)).contains "close_position" = false := by
  refine ⟨rfl, ?_, ?_⟩
  · by_cases hc : "close_all_positions" ∈ tools <;>
      cases invoke_ok <;> simp [execute_cut_loss, hc]
  · by_cases hc : "close_all_positions" ∈ tools <;>
      cases invoke_ok <;> simp [execute_cut_loss, hc]

end ATrade
